import Mathlib

/-!
Verification development for the `senior-thesis-tools` repository.

The repository consists of independent batch scripts:
  * three annotation-pipeline variants
    (`tools/analyze_translation/main.py`, `tools/dmis_analyze/main.py`,
     `tools/analyze_dmis/main.py`) sharing a byte-identical retry loop
    `call_gemini_api` but differing in `parse_response` arity and output
    columns;
  * a sentence aligner (`tools/generate_alignment/generate_alignment.py`);
  * a heatmap reporter (`tools/generate_heatmap/main.py`);
  * a highlight extractor (`kindle-memo-to-csv/kindle-memo-to-csv.py`).

Each script is embedded shallowly below: the external API is abstracted as
a stub `Nat → ApiOutcome` giving the outcome of each attempt, pandas
missing values (NaN) are `Option.none`, and side effects (sleeps, API
calls) are counted in the returned structures.  Python string operations
(`split`, `strip`, `replace`, `in`) are re-implemented structurally over
`List Char` so that every definition evaluates inside the kernel.
-/

/-! ### Python string primitives -/

/-- Whether the first list is a prefix of the second (Boolean,
structural). -/
def isPrefixList : List Char → List Char → Bool
  | [], _ => true
  | _ :: _, [] => false
  | p :: ps, c :: cs => p == c && isPrefixList ps cs

/-- Splitting worker: scans the text, cutting at each occurrence of the
non-empty pattern `pat`; `acc` holds the current piece reversed, and the
fuel (at least the text length plus one) makes the recursion structural.
Matches the semantics of Python `s.split(sep)` for non-empty `sep`. -/
def splitOnListAux (pat : List Char) :
    Nat → List Char → List Char → List (List Char)
  | 0, acc, cs => [acc.reverse ++ cs]
  | _ + 1, acc, [] => [acc.reverse]
  | fuel + 1, acc, c :: cs =>
    if isPrefixList pat (c :: cs) then
      acc.reverse :: splitOnListAux pat fuel [] (List.drop (pat.length - 1) cs)
    else
      splitOnListAux pat fuel (c :: acc) cs

/-- Python `s.split(sep)` for an explicit separator: adjacent separators
produce empty pieces and the empty string yields `[""]`.  (Python raises
on an empty separator; the scripts never pass one, and `[s]` is returned
in that unreachable case.) -/
def pySplitOnStr (s sep : String) : List String :=
  if sep = "" then [s]
  else (splitOnListAux sep.data (s.data.length + 1) [] s.data).map String.mk

/-- Python `s.strip()`: leading and trailing whitespace removed. -/
def pyStrip (s : String) : String :=
  String.mk
    (((s.data.dropWhile Char.isWhitespace).reverse.dropWhile
        Char.isWhitespace).reverse)

/-- Replacement worker for a non-empty pattern, fueled to be
structural. -/
def replaceAux (pat repl : List Char) : Nat → List Char → List Char
  | 0, cs => cs
  | _ + 1, [] => []
  | fuel + 1, c :: cs =>
    if isPrefixList pat (c :: cs) then
      repl ++ replaceAux pat repl fuel (List.drop (pat.length - 1) cs)
    else
      c :: replaceAux pat repl fuel cs

/-- Python `s.replace(pat, repl)` for a non-empty pattern: every
occurrence replaced, left to right, without rescanning the
replacement. -/
def pyReplace (s pat repl : String) : String :=
  String.mk (replaceAux pat.data repl.data (s.data.length + 1) s.data)

/-- Splitting a character list at every character satisfying `p`
(empty pieces kept). -/
def splitPred (p : Char → Bool) : List Char → List (List Char)
  | [] => [[]]
  | c :: cs =>
    let rest := splitPred p cs
    if p c then [] :: rest
    else
      match rest with
      | [] => [[c]]
      | r :: rs => (c :: r) :: rs

/-- Python `s.split()` with no argument: split on whitespace runs,
discarding empty pieces. -/
def pySplitWs (s : String) : List String :=
  ((splitPred Char.isWhitespace s.data).map String.mk).filter
    (fun w => w != "")

/-- Python `sub in s` for a non-empty `sub`: the split on `sub` yields a
single piece exactly when `sub` does not occur in `s`. -/
def pyContains (sub s : String) : Bool := (pySplitOnStr s sub).length != 1

/-- Joining pieces back with a comma (used to model the bounded
`maxsplit` of Python `split`). -/
def joinWithComma : List (List Char) → List Char
  | [] => []
  | [p] => p
  | p :: q :: rest => p ++ ',' :: joinWithComma (q :: rest)

/-- Python `s.split(",", maxsplit)`: at most `maxsplit` cuts are made, so
the result has at most `maxsplit + 1` pieces and only the last piece can
still contain commas.  For a single-character separator this equals the
full split with the tail re-joined. -/
def pySplitMax (s : String) (maxsplit : Nat) : List String :=
  let parts := splitOnListAux [','] (s.data.length + 1) [] s.data
  if parts.length ≤ maxsplit + 1 then parts.map String.mk
  else (parts.take maxsplit).map String.mk
    ++ [String.mk (joinWithComma (parts.drop maxsplit))]

/-! ### Shared constants

These three constants appear verbatim, with the same values, at the top
of all three annotation-pipeline variants. -/

/-- MAX_RETRIES = 3 (リトライ設定). -/
def MAX_RETRIES : Nat := 3

/-- RETRY_DELAY = 5 seconds slept between retried attempts. -/
def RETRY_DELAY : Nat := 5

/-- REQUEST_INTERVAL = 6 seconds slept after a processed record. -/
def REQUEST_INTERVAL : Nat := 6

/-! ### Model of one API attempt

`model.generate_content(prompt)` either raises an exception (carrying a
message) or returns a response whose `.text` is some string.  Python
truthiness of `response.text` is emptiness of the string: an empty text
takes the retry branch, any non-empty text (even pure whitespace) is
returned stripped. -/

/-- Outcome of a single attempted call to the generative-model
endpoint. -/
inductive ApiOutcome where
  | exn : String → ApiOutcome
  | text : String → ApiOutcome
deriving Repr, DecidableEq

/-- Whether an outcome takes a failure branch of the loop body: an
exception, or a response whose text is empty (falsy in Python). -/
def isFailureOutcome : ApiOutcome → Bool
  | ApiOutcome.exn _ => true
  | ApiOutcome.text t => t == ""

/-- Whether an outcome is a raised exception. -/
def isExnOutcome : ApiOutcome → Bool
  | ApiOutcome.exn _ => true
  | ApiOutcome.text _ => false

/-- Result of `call_gemini_api`: the returned value (`none` models the
Python `None` returned after the loop), the number of attempts made, and
the number of `time.sleep(RETRY_DELAY)` calls performed. -/
structure CallResult where
  result : Option String
  attempts : Nat
  sleeps : Nat
deriving Repr, DecidableEq

/-- Loop body of `call_gemini_api`, processing attempts
`attempt, attempt+1, ...` while fuel lasts; fuel counts the remaining
iterations of `for attempt in range(retries)`.  On a non-empty response
text the loop returns the stripped text; on an empty text it logs and
continues without sleeping; on an exception it logs and, when
`attempt < retries - 1`, sleeps `RETRY_DELAY` seconds before continuing.
Falling off the loop returns `None`. -/
def callGeminiApiGo (stub : Nat → ApiOutcome) (retries : Nat) :
    Nat → Nat → CallResult
  | _, 0 => { result := none, attempts := 0, sleeps := 0 }
  | attempt, fuel + 1 =>
    match stub attempt with
    | ApiOutcome.text t =>
      if t = "" then
        let r := callGeminiApiGo stub retries (attempt + 1) fuel
        { result := r.result, attempts := r.attempts + 1,
          sleeps := r.sleeps }
      else
        { result := some (pyStrip t), attempts := 1, sleeps := 0 }
    | ApiOutcome.exn _ =>
      let r := callGeminiApiGo stub retries (attempt + 1) fuel
      { result := r.result, attempts := r.attempts + 1,
        sleeps := r.sleeps + (if attempt < retries - 1 then 1 else 0) }

/-- `call_gemini_api(prompt, retries)` (identical in all three
annotation-pipeline variants).  The prompt only determines the stub's
behaviour, so it is absorbed into `stub`. -/
def call_gemini_api (stub : Nat → ApiOutcome) (retries : Nat) :
    CallResult :=
  callGeminiApiGo stub retries 0 retries

/-! ### Per-variant `parse_response` -/

namespace AnalyzeTranslation

/-- `parse_response` of `tools/analyze_translation/main.py` (N = 3): on
a falsy input (Python `None` or the empty string) the call-failed
sentinel triple; otherwise split on comma with maxsplit 2; with at least
3 parts all three are returned stripped, otherwise the parse-error
sentinel pair with the raw response in the third slot.  The `except`
branch is dead code (`split`/`strip` cannot raise) and is not
modelled. -/
def parse_response (response_text : Option String) :
    String × String × String :=
  match response_text with
  | none =>
    ("API呼び出し失敗", "API呼び出し失敗", "APIからの応答がありませんでした")
  | some t =>
    if t = "" then
      ("API呼び出し失敗", "API呼び出し失敗", "APIからの応答がありませんでした")
    else
      let parts := pySplitMax t 2
      if 3 ≤ parts.length then
        (pyStrip (parts.getD 0 ""), pyStrip (parts.getD 1 ""),
          pyStrip (parts.getD 2 ""))
      else
        ("解析エラー", "解析エラー", "形式不正: " ++ t)

end AnalyzeTranslation

namespace DmisAnalyze

/-- `parse_response` of `tools/dmis_analyze/main.py` (N = 4).  The
tuples the Python function returns have different arities on different
branches, so the result is modelled as a `List String` (the tuple's
components in order): 4 elements on the well-formed branch but only 3 on
the call-failed and parse-error branches — exactly as in the source,
whose own comment nevertheless claims the error branch was fixed to
return 4 items. -/
def parse_response (response_text : Option String) : List String :=
  match response_text with
  | none =>
    ["API呼び出し失敗", "API呼び出し失敗", "APIからの応答がありませんでした"]
  | some t =>
    if t = "" then
      ["API呼び出し失敗", "API呼び出し失敗", "APIからの応答がありませんでした"]
    else
      let parts := pySplitMax t 3
      if 4 ≤ parts.length then
        [pyStrip (parts.getD 0 ""), pyStrip (parts.getD 1 ""),
          pyStrip (parts.getD 2 ""), pyStrip (parts.getD 3 "")]
      else
        ["解析エラー", "解析エラー", "形式不正: " ++ t]

/-- Python tuple unpacking `a, b, c, d = xs`: succeeds exactly when the
tuple has 4 components, otherwise raises `ValueError` (modelled as
`none`). -/
def unpack4 (xs : List String) :
    Option (String × String × String × String) :=
  match xs with
  | [a, b, c, d] => some (a, b, c, d)
  | _ => none

end DmisAnalyze

namespace AnalyzeDmis

/-- `parse_response` of `tools/analyze_dmis/main.py` (N = 2): 2 elements
on the well-formed branch but 3 on the call-failed and parse-error
branches, as in the source (whose docstring declares a 2-tuple). -/
def parse_response (response_text : Option String) : List String :=
  match response_text with
  | none =>
    ["API呼び出し失敗", "API呼び出し失敗", "APIからの応答がありませんでした"]
  | some t =>
    if t = "" then
      ["API呼び出し失敗", "API呼び出し失敗", "APIからの応答がありませんでした"]
    else
      let parts := pySplitMax t 1
      if 2 ≤ parts.length then
        [pyStrip (parts.getD 0 ""), pyStrip (parts.getD 1 "")]
      else
        ["解析エラー", "解析エラー", "形式不正: " ++ t]

/-- Python tuple unpacking `a, b = xs`: succeeds exactly when the tuple
has 2 components, otherwise raises `ValueError` (modelled as `none`). -/
def unpack2 (xs : List String) : Option (String × String) :=
  match xs with
  | [a, b] => some (a, b)
  | _ => none

end AnalyzeDmis

/-! ### Per-record processing of the annotation pipelines

A CSV row; `none` models a pandas missing value (NaN), so `pd.isna` is
equality with `none`.  A present-but-empty cell is `some ""`.  Only the
columns the main loops inspect for control flow are kept; the prompt
text built from the remaining columns is absorbed into the API stub. -/
structure Row where
  highlight_jp : Option String
  highlight_en : Option String
  note : Option String
deriving Repr, DecidableEq

namespace AnalyzeTranslation

/-- Outcome of one iteration of the main loop of
`tools/analyze_translation/main.py` for one row: the three output-column
values written for this row, whether the row was counted as an error,
the number of API calls made, and the number of
`time.sleep(REQUEST_INTERVAL)` calls executed after the record. -/
structure RecordOutcome where
  term : String
  method : String
  reason : String
  isError : Bool
  apiCalls : Nat
  intervalSleeps : Nat
deriving Repr, DecidableEq

/-- One iteration of the main loop: if `pd.isna(highlight_jp) or
pd.isna(highlight_en)` the row is marked データ欠落 and skipped with
`continue` (no API call, no interval sleep, the 対応訳 column keeps its
initial empty value); otherwise the API is called, the response parsed,
the three columns written, the success condition
`"エラー" not in method and "失敗" not in method` evaluated, and the
rate-limit sleep executed. -/
def processRow (stub : Nat → ApiOutcome) (row : Row) : RecordOutcome :=
  if row.highlight_jp = none ∨ row.highlight_en = none then
    { term := "", method := "データ欠落",
      reason := "Highlight_JPまたはHighlight_ENが空です",
      isError := true, apiCalls := 0, intervalSleeps := 0 }
  else
    let response := (call_gemini_api stub MAX_RETRIES).result
    let parsed := parse_response response
    { term := parsed.1, method := parsed.2.1, reason := parsed.2.2,
      isError :=
        pyContains "エラー" parsed.2.1 || pyContains "失敗" parsed.2.1,
      apiCalls := 1, intervalSleeps := 1 }

/-- The counter updates of the main loop: each row increments exactly
one of `success_count`/`error_count` (the skip branch increments
`error_count` before `continue`). -/
def mainLoop (stub : Nat → ApiOutcome) (rows : List Row) : Nat × Nat :=
  rows.foldl
    (fun acc row =>
      if (processRow stub row).isError then (acc.1, acc.2 + 1)
      else (acc.1 + 1, acc.2))
    (0, 0)

end AnalyzeTranslation

namespace DmisAnalyze

/-- Outcome of one iteration of the main loop of
`tools/dmis_analyze/main.py` for one row.  `none` models the iteration
raising `ValueError` out of the tuple unpacking
`translated_term, method, sensitivity, remark =
parse_response(response)`. -/
structure RecordOutcome where
  translated_term : String
  method : String
  sensitivity : String
  remark : String
  isError : Bool
  apiCalls : Nat
deriving Repr, DecidableEq

/-- One iteration of the main loop of `tools/dmis_analyze/main.py`: the
skip branch writes データ欠落 into the two label columns; otherwise the
API response is parsed and unpacked into exactly 4 names — when
`parse_response` returns a 3-component tuple (call-failed and
parse-error branches) the unpacking raises. -/
def processRow (stub : Nat → ApiOutcome) (row : Row) :
    Option RecordOutcome :=
  if row.highlight_jp = none ∨ row.highlight_en = none then
    some { translated_term := "", method := "データ欠落",
           sensitivity := "データ欠落",
           remark := "Highlight_JPまたはHighlight_ENが空です",
           isError := true, apiCalls := 0 }
  else
    let response := (call_gemini_api stub MAX_RETRIES).result
    match unpack4 (parse_response response) with
    | none => none
    | some (a, b, c, d) =>
      some { translated_term := a, method := b, sensitivity := c,
             remark := d,
             isError := pyContains "エラー" b || pyContains "失敗" b,
             apiCalls := 1 }

end DmisAnalyze

/-! ### Sentence aligner (`tools/generate_alignment/generate_alignment.py`)

The embedding model and `util.cos_sim` are external; a row's similarity
scores against all candidate English sentences enter the model as a list
of rationals.  `sims.argmax().item()` is `torch.argmax`, documented to
return the index of the first maximal value. -/

/-- Maximum of a similarity row (the value `torch.max` would give); `0`
for the empty list, which the script never produces. -/
def simsMax : List ℚ → ℚ
  | [] => 0
  | [x] => x
  | x :: y :: rest => max x (simsMax (y :: rest))

/-- First-occurrence argmax, the documented behaviour of `torch.argmax`:
the head wins ties against the tail. -/
def simsArgmax : List ℚ → Nat
  | [] => 0
  | [_] => 0
  | x :: y :: rest =>
    if x < simsMax (y :: rest) then simsArgmax (y :: rest) + 1 else 0

/-- The fields of one element of `matches` that depend on the argmax:
`Highlight_EN = sentences[best_idx]` and
`Similarity = sims[best_idx].item()`. -/
structure AlignedRecord where
  highlight_en : String
  similarity : ℚ
deriving Repr, DecidableEq

/-- One iteration of the `matches` loop for one Japanese highlight. -/
def alignRow (sentences : List String) (sims : List ℚ) : AlignedRecord :=
  let best := simsArgmax sims
  { highlight_en := sentences.getD best "",
    similarity := sims.getD best 0 }

/-! ### Heatmap reporter preprocessing (`tools/generate_heatmap/main.py`)

A pandas label column is a list of cells, `none` being NaN.  The script
runs `df[col].astype(str).str.strip().fillna("")` on each of the two
label columns. -/

/-- pandas `astype(str)`: every cell is stringified; a NaN cell becomes
the string `str(nan) = "nan"` (not a missing value). -/
def astype_str (col : List (Option String)) : List (Option String) :=
  col.map (fun v =>
    match v with
    | none => some "nan"
    | some s => some s)

/-- pandas `.str.strip()`: strings are stripped, missing values stay
missing. -/
def str_strip (col : List (Option String)) : List (Option String) :=
  col.map (Option.map pyStrip)

/-- pandas `.fillna(repl)`: missing values are replaced, strings
kept. -/
def fillna (repl : String) (col : List (Option String)) :
    List (Option String) :=
  col.map (fun v =>
    match v with
    | none => some repl
    | some s => some s)

/-- The preprocessing applied to each designated label column:
`astype(str)` then `.str.strip()` then `.fillna("")`, in that order. -/
def preprocess_label_col (col : List (Option String)) :
    List (Option String) :=
  fillna "" (str_strip (astype_str col))

/-! ### Highlight extractor (`kindle-memo-to-csv/kindle-memo-to-csv.py`) -/

/-- A highlight block of the notebook HTML: the extracted text of the
`.kp-notebook-highlight` element when present, the `value` attribute of
the location input when present, and the extracted text
(`get_text(" ", strip=True)`) of the `.kp-notebook-note` element when
present. -/
structure Block where
  highlight_el : Option String
  location_value : Option String
  note_el : Option String
deriving Repr, DecidableEq

/-- The note-words of a note element's text: the fixed literal label
"メモ" is removed, then the result is split on whitespace. -/
def noteWords (note : String) : List String :=
  pySplitWs (pyReplace note "メモ" "")

/-- The location of a block: the stripped `value` attribute of the
location input, or the empty string when absent. -/
def blockLocation (b : Block) : String :=
  match b.location_value with
  | none => ""
  | some v => pyStrip v

/-- The highlight string of a block: the element text with every
half-width space removed (`.replace(" ", "")`). -/
def blockHighlight (h : String) : String := pyReplace h " " ""

/-- The records emitted for one block: nothing without a highlight
element; nothing (plus a logged warning) without a note element;
otherwise one `[location, highlight, note_word]` record per
note-word. -/
def processBlock (b : Block) : List (String × String × String) :=
  match b.highlight_el with
  | none => []
  | some h =>
    match b.note_el with
    | none => []
    | some note =>
      (noteWords note).map
        (fun w => (blockLocation b, blockHighlight h, w))

/-! ### Concrete stubs and rows used by witnesses and counterexamples -/

/-- A stub whose every call raises an exception. -/
def failStub : Nat → ApiOutcome := fun _ => ApiOutcome.exn "boom"

/-- A stub whose every call returns an empty response text. -/
def emptyStub : Nat → ApiOutcome := fun _ => ApiOutcome.text ""

/-- A stub returning a well-formed three-field reply on every call. -/
def okStub : Nat → ApiOutcome := fun _ => ApiOutcome.text "term,method,reason"

/-- A row with both required fields present and non-empty. -/
def validRow : Row :=
  { highlight_jp := some "原文", highlight_en := some "text", note := none }

/-- A row whose Japanese text is present but empty after stripping. -/
def emptyJpRow : Row :=
  { highlight_jp := some "", highlight_en := some "x", note := none }

/-- A row whose Japanese text is missing (NaN). -/
def missingJpRow : Row :=
  { highlight_jp := none, highlight_en := some "x", note := none }

/-! ### Lemmas about the retry loop -/

/-- When every attempt fails (exception or empty text), the loop runs
through all its fuel, makes one attempt per iteration and falls off the
end returning `None`. -/
theorem callGeminiApiGo_result_attempts_of_fail
    (stub : Nat → ApiOutcome)
    (hfail : ∀ i, isFailureOutcome (stub i) = true) (retries : Nat) :
    ∀ fuel attempt,
      (callGeminiApiGo stub retries attempt fuel).result = none ∧
      (callGeminiApiGo stub retries attempt fuel).attempts = fuel := by
  intro fuel
  induction fuel with
  | zero => intro attempt; exact ⟨rfl, rfl⟩
  | succ k ih =>
    intro attempt
    cases hstub : stub attempt with
    | text t =>
      have ht : t = "" := by
        have hf := hfail attempt
        rw [hstub] at hf
        simpa [isFailureOutcome] using hf
      simp only [callGeminiApiGo, hstub, ht, if_pos]
      exact ⟨(ih (attempt + 1)).1, by rw [(ih (attempt + 1)).2]⟩
    | exn m =>
      simp only [callGeminiApiGo, hstub]
      exact ⟨(ih (attempt + 1)).1, by rw [(ih (attempt + 1)).2]⟩

/-- The number of `time.sleep(RETRY_DELAY)` calls made by the loop
equals the number of attempts that raised an exception and were not the
final allowed attempt: the empty-response branch, unlike the exception
branch, reaches no sleep statement. -/
theorem callGeminiApiGo_sleeps_eq_countP
    (stub : Nat → ApiOutcome) (retries : Nat) :
    ∀ fuel attempt,
      (callGeminiApiGo stub retries attempt fuel).sleeps =
        (List.range
            (callGeminiApiGo stub retries attempt fuel).attempts).countP
          (fun j =>
            isExnOutcome (stub (attempt + j)) &&
              decide (attempt + j < retries - 1)) := by
  intro fuel
  induction fuel with
  | zero => intro attempt; simp [callGeminiApiGo]
  | succ k ih =>
    intro attempt
    have hshift :
        (fun j =>
            isExnOutcome (stub (attempt + 1 + j)) &&
              decide (attempt + 1 + j < retries - 1)) =
          (fun j =>
            isExnOutcome (stub (attempt + (j + 1))) &&
              decide (attempt + (j + 1) < retries - 1)) := by
      funext j
      rw [show attempt + 1 + j = attempt + (j + 1) by omega]
    cases hstub : stub attempt with
    | text t =>
      by_cases ht : t = ""
      · simp only [callGeminiApiGo, hstub, ht, if_pos]
        rw [List.range_succ_eq_map, List.countP_cons, List.countP_map]
        have hhead :
            (isExnOutcome (stub (attempt + 0)) &&
              decide (attempt + 0 < retries - 1)) = false := by
          simp [hstub, isExnOutcome]
        rw [hhead]
        simp only [Bool.false_eq_true, if_false, Nat.add_zero]
        rw [ih (attempt + 1), hshift]
        rfl
      · simp only [callGeminiApiGo, hstub, ht, if_neg, ite_false]
        rw [List.range_succ_eq_map]
        simp [hstub, isExnOutcome]
    | exn m =>
      simp only [callGeminiApiGo, hstub]
      rw [List.range_succ_eq_map, List.countP_cons, List.countP_map]
      have hhead :
          (isExnOutcome (stub (attempt + 0)) &&
            decide (attempt + 0 < retries - 1)) =
            decide (attempt < retries - 1) := by
        simp [hstub, isExnOutcome]
      rw [hhead]
      rw [ih (attempt + 1), hshift]
      have hcomp :
          ((fun j =>
              isExnOutcome (stub (attempt + j)) &&
                decide (attempt + j < retries - 1)) ∘ Nat.succ) =
            (fun j =>
              isExnOutcome (stub (attempt + (j + 1))) &&
                decide (attempt + (j + 1) < retries - 1)) := by
        funext j
        rfl
      rw [hcomp]
      simp only [decide_eq_true_eq]

/-! ### Claims about the retry/parse contract -/

/-- C3: for a stub that fails on every call, `call_gemini_api` makes
exactly 3 attempts (no fourth attempt), returns `None`, and the
subsequent parse of the translation variant maps it to the call-failed
sentinel in the output fields. -/
theorem claim3_exhausts_exactly_three_attempts
    (stub : Nat → ApiOutcome)
    (hfail : ∀ i, isFailureOutcome (stub i) = true) :
    (call_gemini_api stub MAX_RETRIES).attempts = 3 ∧
    (call_gemini_api stub MAX_RETRIES).result = none ∧
    AnalyzeTranslation.parse_response
        (call_gemini_api stub MAX_RETRIES).result =
      ("API呼び出し失敗", "API呼び出し失敗",
        "APIからの応答がありませんでした") := by
  obtain ⟨h1, h2⟩ :=
    callGeminiApiGo_result_attempts_of_fail stub hfail MAX_RETRIES
      MAX_RETRIES 0
  refine ⟨h2, h1, ?_⟩
  rw [call_gemini_api, h1]
  rfl

/-- Witness for C3 at a stub raising an exception on every call. -/
theorem claim3_witness :
    (call_gemini_api failStub MAX_RETRIES).attempts = 3 ∧
    (call_gemini_api failStub MAX_RETRIES).result = none ∧
    AnalyzeTranslation.parse_response
        (call_gemini_api failStub MAX_RETRIES).result =
      ("API呼び出し失敗", "API呼び出し失敗",
        "APIからの応答がありませんでした") :=
  claim3_exhausts_exactly_three_attempts failStub (fun _ => rfl)

/-- C5 (amended): the fixed RETRY_DELAY sleep happens exactly before the
non-final attempts whose failure was a raised exception; a retry caused
by an empty response proceeds to the next attempt without any sleep.  The
count of sleeps equals the count of attempt indices that raised an
exception and were below `retries - 1`. -/
theorem claim5_sleep_only_on_exception_retries
    (stub : Nat → ApiOutcome) (retries : Nat) :
    RETRY_DELAY = 5 ∧
    (call_gemini_api stub retries).sleeps =
      (List.range (call_gemini_api stub retries).attempts).countP
        (fun i => isExnOutcome (stub i) && decide (i < retries - 1)) := by
  refine ⟨rfl, ?_⟩
  have h := callGeminiApiGo_sleeps_eq_countP stub retries retries 0
  have hp :
      (fun j =>
          isExnOutcome (stub (0 + j)) && decide (0 + j < retries - 1)) =
        (fun i => isExnOutcome (stub i) && decide (i < retries - 1)) := by
    funext j
    rw [Nat.zero_add]
  rw [call_gemini_api]
  rw [h, hp]

/-- Counterexample to C5 as stated: with a stub answering an empty
response on every call, all 3 attempts are retried failures, yet zero
sleeps occur — not the 2 sleeps the claim requires between the 3
consecutive attempts. -/
theorem claim5_counterexample_no_sleep_on_empty_response :
    (call_gemini_api emptyStub 3).attempts = 3 ∧
    (call_gemini_api emptyStub 3).result = none ∧
    (call_gemini_api emptyStub 3).sleeps = 0 ∧
    (call_gemini_api emptyStub 3).sleeps ≠ 3 - 1 := by
  refine ⟨rfl, rfl, rfl, ?_⟩
  decide

/-- C1 (code bug): when retries are exhausted, the `dmis_analyze`
variant's `parse_response` returns a 3-component tuple which `main`
unpacks into 4 names, raising `ValueError` (modelled as `none`) instead
of writing the failure sentinel; the `analyze_dmis` variant's 3-component
tuple likewise fails its 2-name unpacking.  Only the
`analyze_translation` variant writes the sentinel and returns
normally. -/
theorem claim1_retry_exhaustion_raises_in_dmis_variants :
    DmisAnalyze.processRow failStub validRow = none ∧
    (DmisAnalyze.parse_response none).length = 3 ∧
    AnalyzeDmis.unpack2 (AnalyzeDmis.parse_response none) = none ∧
    AnalyzeTranslation.processRow failStub validRow =
      { term := "API呼び出し失敗", method := "API呼び出し失敗",
        reason := "APIからの応答がありませんでした",
        isError := true, apiCalls := 1, intervalSleeps := 1 } := by
  refine ⟨rfl, rfl, rfl, ?_⟩
  decide

/-- C2 (code bug): on a non-empty response with fewer than 4 fields the
`dmis_analyze` variant's `parse_response` produces only 3 components
(two parse-error sentinels plus the diagnostic), never 4, contradicting
its own comment; on well-formed input both variants do return all fields
stripped with only the last preserving embedded commas. -/
theorem claim2_parse_error_branch_wrong_arity :
    DmisAnalyze.parse_response (some "A,B,C") =
      ["解析エラー", "解析エラー", "形式不正: A,B,C"] ∧
    (DmisAnalyze.parse_response (some "A,B,C")).length ≠ 4 ∧
    DmisAnalyze.parse_response (some " t ,m,s, r, with commas ") =
      ["t", "m", "s", "r, with commas"] ∧
    AnalyzeTranslation.parse_response (some " t ,m, r, with commas ") =
      ("t", "m", "r, with commas") := by
  refine ⟨rfl, ?_, rfl, rfl⟩
  decide

/-! ### Claims about the main loop's per-row control flow -/

/-- C4 (amended): a row is skipped precisely when a required field is
missing (NaN); the skip makes no API call, writes the data-missing
sentinel into the 翻訳技法 column and the fixed explanatory message into
the rationale column, leaves the 対応訳 column at its initial empty
value, and counts the row as an error.  A present-but-empty field does
not trigger the skip. -/
theorem claim4_missing_field_skips_without_api_call
    (stub : Nat → ApiOutcome) (row : Row)
    (hmiss : row.highlight_jp = none ∨ row.highlight_en = none) :
    AnalyzeTranslation.processRow stub row =
      { term := "", method := "データ欠落",
        reason := "Highlight_JPまたはHighlight_ENが空です",
        isError := true, apiCalls := 0, intervalSleeps := 0 } := by
  unfold AnalyzeTranslation.processRow
  rw [if_pos hmiss]

/-- Witness for C4 (amended) at a row whose Japanese text is NaN. -/
theorem claim4_witness :
    AnalyzeTranslation.processRow okStub missingJpRow =
      { term := "", method := "データ欠落",
        reason := "Highlight_JPまたはHighlight_ENが空です",
        isError := true, apiCalls := 0, intervalSleeps := 0 } :=
  claim4_missing_field_skips_without_api_call okStub missingJpRow
    (Or.inl rfl)

/-- Counterexample to C4 as stated: the row with an empty-string
Japanese text and a present English text is NOT skipped — the pipeline
performs an API call for it and does not write the data-missing
sentinel. -/
theorem claim4_counterexample_empty_string_not_skipped :
    (AnalyzeTranslation.processRow okStub emptyJpRow).apiCalls = 1 ∧
    (AnalyzeTranslation.processRow okStub emptyJpRow).method ≠
      "データ欠落" := by
  refine ⟨rfl, ?_⟩
  decide

/-- C7 (amended): the fixed REQUEST_INTERVAL sleep runs after every row
that passes the required-field check (regardless of API failure or parse
error), but a row skipped for missing required data reaches `continue`
before the sleep, so no interval sleep happens for it. -/
theorem claim7_interval_sleep_only_for_processed_rows
    (stub : Nat → ApiOutcome) (row : Row) :
    REQUEST_INTERVAL = 6 ∧
    (AnalyzeTranslation.processRow stub row).intervalSleeps =
      (if row.highlight_jp = none ∨ row.highlight_en = none then 0
        else 1) := by
  refine ⟨rfl, ?_⟩
  unfold AnalyzeTranslation.processRow
  by_cases hmiss : row.highlight_jp = none ∨ row.highlight_en = none
  · rw [if_pos hmiss, if_pos hmiss]
  · rw [if_neg hmiss, if_neg hmiss]

/-- Counterexample to C7 as stated: a record skipped for missing
required data gets no interval sleep at all. -/
theorem claim7_counterexample_skipped_row_no_sleep :
    (AnalyzeTranslation.processRow okStub missingJpRow).intervalSleeps
        = 0 ∧
    (AnalyzeTranslation.processRow okStub missingJpRow).intervalSleeps
        ≠ 1 := by
  refine ⟨rfl, ?_⟩
  decide

/-- C10: after the main loop of the translation variant processes all
rows, `success_count + error_count` equals the number of input rows —
each row is counted exactly once, skipped data-missing rows counting as
errors. -/
theorem claim10_success_plus_error_equals_rows
    (stub : Nat → ApiOutcome) (rows : List Row) :
    (AnalyzeTranslation.mainLoop stub rows).1 +
      (AnalyzeTranslation.mainLoop stub rows).2 = rows.length := by
  have key : ∀ (l : List Row) (acc : Nat × Nat),
      (l.foldl
          (fun acc row =>
            if (AnalyzeTranslation.processRow stub row).isError then
              (acc.1, acc.2 + 1)
            else (acc.1 + 1, acc.2)) acc).1 +
        (l.foldl
          (fun acc row =>
            if (AnalyzeTranslation.processRow stub row).isError then
              (acc.1, acc.2 + 1)
            else (acc.1 + 1, acc.2)) acc).2 =
        acc.1 + acc.2 + l.length := by
    intro l
    induction l with
    | nil => intro acc; simp
    | cons r rs ih =>
      intro acc
      simp only [List.foldl_cons, List.length_cons]
      by_cases hr : (AnalyzeTranslation.processRow stub r).isError = true
      · rw [if_pos hr, ih]
        omega
      · rw [if_neg hr, ih]
        omega
  have h := key rows (0, 0)
  simpa [AnalyzeTranslation.mainLoop] using h

/-! ### Lemmas about the aligner's argmax -/

/-- Every similarity value is bounded by the row maximum. -/
theorem le_simsMax : ∀ (sims : List ℚ), ∀ v ∈ sims, v ≤ simsMax sims := by
  intro sims
  induction sims with
  | nil => intro v hv; cases hv
  | cons x xs ih =>
    cases xs with
    | nil =>
      intro v hv
      rcases List.mem_cons.mp hv with rfl | hv'
      · exact le_of_eq rfl
      · cases hv'
    | cons y rest =>
      intro v hv
      rcases List.mem_cons.mp hv with rfl | hv'
      · exact le_max_left _ _
      · exact le_trans (ih v hv') (le_max_right _ _)

/-- The argmax is a valid index of a non-empty row. -/
theorem simsArgmax_lt_length :
    ∀ (sims : List ℚ), sims ≠ [] → simsArgmax sims < sims.length := by
  intro sims
  induction sims with
  | nil => intro h; exact absurd rfl h
  | cons x xs ih =>
    cases xs with
    | nil => intro _; simp [simsArgmax]
    | cons y rest =>
      intro _
      by_cases hlt : x < simsMax (y :: rest)
      · have h2 := ih (by simp)
        simp only [List.length_cons] at h2
        simp only [simsArgmax, if_pos hlt, List.length_cons]
        omega
      · simp [simsArgmax, if_neg hlt]

/-- The similarity stored at the argmax index is the row maximum. -/
theorem getD_simsArgmax :
    ∀ (sims : List ℚ), sims ≠ [] →
      sims.getD (simsArgmax sims) 0 = simsMax sims := by
  intro sims
  induction sims with
  | nil => intro h; exact absurd rfl h
  | cons x xs ih =>
    cases xs with
    | nil => intro _; rfl
    | cons y rest =>
      intro _
      by_cases hlt : x < simsMax (y :: rest)
      · have htail := ih (by simp)
        simp only [simsArgmax, if_pos hlt]
        calc (x :: y :: rest).getD (simsArgmax (y :: rest) + 1) 0
            = (y :: rest).getD (simsArgmax (y :: rest)) 0 := rfl
          _ = simsMax (y :: rest) := htail
          _ = simsMax (x :: y :: rest) := by
              simp only [simsMax]
              exact (max_eq_right (le_of_lt hlt)).symm
      · simp only [simsArgmax, if_neg hlt]
        simp only [List.getD_cons_zero, simsMax]
        exact (max_eq_left (le_of_not_lt hlt)).symm

/-- Every candidate strictly before the argmax has strictly smaller
similarity: the first occurrence of the maximum is selected. -/
theorem take_simsArgmax_all_lt :
    ∀ (sims : List ℚ),
      ((sims.take (simsArgmax sims)).all
        (fun v => decide (v < simsMax sims))) = true := by
  intro sims
  induction sims with
  | nil => rfl
  | cons x xs ih =>
    cases xs with
    | nil => rfl
    | cons y rest =>
      by_cases hlt : x < simsMax (y :: rest)
      · have hmax : simsMax (x :: y :: rest) = simsMax (y :: rest) := by
          simp only [simsMax]
          exact max_eq_right (le_of_lt hlt)
        simp only [simsArgmax, if_pos hlt, List.take_succ_cons,
          List.all_cons, hmax]
        rw [Bool.and_eq_true]
        exact ⟨by simpa using hlt, ih⟩
      · simp [simsArgmax, if_neg hlt]

/-- C6: for a non-empty similarity row the aligner emits the candidate
sentence and similarity at the first-occurrence argmax: the emitted
similarity equals the row maximum, no candidate has strictly larger
similarity, and every candidate at a strictly smaller index has strictly
smaller similarity (ties are broken by first occurrence). -/
theorem claim6_alignment_selects_first_maximum
    (sentences : List String) (sims : List ℚ) (hne : sims ≠ []) :
    (alignRow sentences sims).similarity = simsMax sims ∧
    (alignRow sentences sims).highlight_en =
      sentences.getD (simsArgmax sims) "" ∧
    simsArgmax sims < sims.length ∧
    (sims.all (fun v => decide (v ≤ simsMax sims))) = true ∧
    ((sims.take (simsArgmax sims)).all
      (fun v => decide (v < simsMax sims))) = true := by
  refine ⟨getD_simsArgmax sims hne, rfl, simsArgmax_lt_length sims hne,
    ?_, take_simsArgmax_all_lt sims⟩
  rw [List.all_eq_true]
  intro v hv
  simpa using le_simsMax sims v hv

/-- Witness for C6 at a row with a tied maximum: index 1 (the first of
the two maxima) is selected. -/
theorem claim6_witness :
    (alignRow ["s0", "s1", "s2"] [0, 2, 2]).similarity =
        simsMax [0, 2, 2] ∧
    (alignRow ["s0", "s1", "s2"] [0, 2, 2]).highlight_en =
      ["s0", "s1", "s2"].getD (simsArgmax [0, 2, 2]) "" ∧
    simsArgmax [0, 2, 2] < ([0, 2, 2] : List ℚ).length ∧
    (([0, 2, 2] : List ℚ).all
      (fun v => decide (v ≤ simsMax [0, 2, 2]))) = true ∧
    ((([0, 2, 2] : List ℚ).take (simsArgmax [0, 2, 2])).all
      (fun v => decide (v < simsMax [0, 2, 2]))) = true :=
  claim6_alignment_selects_first_maximum ["s0", "s1", "s2"] [0, 2, 2]
    (by simp)

/-! ### Claims about the heatmap preprocessing and the extractor -/

/-- C8 (code bug): in the label-column preprocessing, strings are indeed
trimmed, but a missing value (NaN) becomes the string "nan", not the
empty string: `astype(str)` stringifies NaN before `.fillna("")` runs,
so the `fillna` is a no-op — contradicting the script's own comment
that missing values become the empty string. -/
theorem claim8_nan_becomes_nan_string :
    preprocess_label_col [none, some "  Denial ", some "Adaptation"] =
      [some "nan", some "Denial", some "Adaptation"] ∧
    preprocess_label_col [none] ≠ [some ""] := by
  refine ⟨rfl, ?_⟩
  decide

/-- C9: for a block with a highlight element and a note element whose
text splits into K note-words after removal of the "メモ" label, the
extractor emits exactly K records, every one carrying the block's
location and highlight strings. -/
theorem claim9_one_record_per_note_word
    (b : Block) (h note : String)
    (hhl : b.highlight_el = some h) (hnote : b.note_el = some note) :
    (processBlock b).length = (noteWords note).length ∧
    ((processBlock b).all
      (fun r => r.1 == blockLocation b && r.2.1 == blockHighlight h))
        = true := by
  unfold processBlock
  rw [hhl, hnote]
  constructor
  · simp
  · rw [List.all_eq_true]
    intro w hw
    obtain ⟨u, hu, rfl⟩ := List.mem_map.mp hw
    simp

/-- Witness for C9 at a block whose note holds two note-words. -/
theorem claim9_witness :
    (processBlock
        { highlight_el := some "吾 輩は猫", location_value := some " 123 ",
          note_el := some "メモ 儒者 切支丹" }).length =
      (noteWords "メモ 儒者 切支丹").length ∧
    ((processBlock
        { highlight_el := some "吾 輩は猫", location_value := some " 123 ",
          note_el := some "メモ 儒者 切支丹" }).all
      (fun r =>
        r.1 ==
            blockLocation
              { highlight_el := some "吾 輩は猫",
                location_value := some " 123 ",
                note_el := some "メモ 儒者 切支丹" } &&
          r.2.1 == blockHighlight "吾 輩は猫")) = true :=
  claim9_one_record_per_note_word
    { highlight_el := some "吾 輩は猫", location_value := some " 123 ",
      note_el := some "メモ 儒者 切支丹" } "吾 輩は猫" "メモ 儒者 切支丹"
    rfl rfl
